import Mathlib

set_option maxRecDepth 100000

/-!
# Webhook signature validator — shallow embedding

This file embeds the `POST /webhook` handler of `src/main.py` (FastAPI app)
into Lean 4 and proves the specification claims about it.

The embedding models:
* SHA-256 and HMAC-SHA256 concretely (bytes are `List Nat`, each `< 256`,
  32-bit words are `Nat` reduced `% 2^32`),
* lowercase hex encoding (`hashlib`'s `hexdigest`),
* strict UTF-8 decoding (`bytes.decode('utf-8')`) and UTF-8 encoding
  (`str.encode('utf-8')`),
* Python `int(...)` parsing of the timestamp field (ASCII whitespace, an
  optional sign, decimal digits with single embedded underscores),
* `str.split(",")` via `String.splitOn`, and `s[2:]` via `String.drop 2`,
* JSON values and `json.loads` (numbers restricted to integer literals; the
  claims under study involve no float payloads),
* the handler pipeline itself, including the paths where Python raises an
  exception that no `except` block catches (modelled as `Outcome.crash`).
-/

namespace Webhook

/-! ## SHA-256 over byte lists -/

/-- 32-bit truncating addition. -/
def add32 (a b : Nat) : Nat := (a + b) % 2 ^ 32

/-- Right rotation of a 32-bit word by `n`. -/
def rotr (n x : Nat) : Nat := ((x >>> n) ||| (x <<< (32 - n))) % 2 ^ 32

/-- SHA-256 `Ch` function. -/
def ch (x y z : Nat) : Nat := (x &&& y) ^^^ ((x ^^^ 0xffffffff) &&& z)

/-- SHA-256 `Maj` function (majority, written here z-first; `Xor` is
commutative so the order is immaterial). -/
def maj (x y z : Nat) : Nat := (y &&& z) ^^^ (x &&& z) ^^^ (x &&& y)

/-- The `Σ0` word function. -/
def bigS0 (x : Nat) : Nat := rotr 2 x ^^^ rotr 13 x ^^^ rotr 22 x

/-- The `Σ1` word function. -/
def bigS1 (x : Nat) : Nat := rotr 6 x ^^^ rotr 11 x ^^^ rotr 25 x

/-- The `σ0` schedule function. -/
def smallS0 (x : Nat) : Nat := rotr 7 x ^^^ rotr 18 x ^^^ (x >>> 3)

/-- The `σ1` schedule function. -/
def smallS1 (x : Nat) : Nat := rotr 17 x ^^^ rotr 19 x ^^^ (x >>> 10)

/-- The 64 SHA-256 round constants. -/
def shaK : List Nat :=
  [1116352408, 1899447441, 3049323471, 3921009573, 961987163, 1508970993,
   2453635748, 2870763221, 3624381080, 310598401, 607225278, 1426881987,
   1925078388, 2162078206, 2614888103, 3248222580, 3835390401, 4022224774,
   264347078, 604807628, 770255983, 1249150122, 1555081692, 1996064986,
   2554220882, 2821834349, 2952996808, 3210313671, 3336571891, 3584528711,
   113926993, 338241895, 666307205, 773529912, 1294757372, 1396182291,
   1695183700, 1986661051, 2177026350, 2456956037, 2730485921, 2820302411,
   3259730800, 3345764771, 3516065817, 3600352804, 4094571909, 275423344,
   430227734, 506948616, 659060556, 883997877, 958139571, 1322822218,
   1537002063, 1747873779, 1955562222, 2024104815, 2227730452, 2361852424,
   2428436474, 2756734187, 3204031479, 3329325298]

/-- The SHA-256 initial hash value. -/
def shaH0 : List Nat :=
  [1779033703, 3144134277, 1013904242, 2773480762, 1359893119, 2600822924,
   528734635, 1541459225]

/-- Extend a 16-word block to the 64-word message schedule (`fuel = 48`). -/
def extendW (fuel : Nat) (ws : List Nat) : List Nat :=
  match fuel with
  | 0 => ws
  | k + 1 =>
    let i := ws.length
    let w := add32 (add32 (smallS1 (ws.getD (i - 2) 0)) (ws.getD (i - 7) 0))
                   (add32 (smallS0 (ws.getD (i - 15) 0)) (ws.getD (i - 16) 0))
    extendW k (ws ++ [w])

/-- One SHA-256 round: state is the list `[a,b,c,d,e,f,g,h]`, `kw` the round
constant paired with the schedule word. -/
def shaRound (st : List Nat) (kw : Nat × Nat) : List Nat :=
  match st with
  | [a, b, c, d, e, f, g, h] =>
    let t1 := add32 h (add32 (bigS1 e) (add32 (ch e f g) (add32 kw.1 kw.2)))
    let t2 := add32 (bigS0 a) (maj a b c)
    [add32 t1 t2, a, b, c, add32 d t1, e, f, g]
  | other => other

/-- Compress one 16-word block into the running hash value. -/
def shaCompress (h : List Nat) (block : List Nat) : List Nat :=
  let w := extendW 48 block
  let st := (shaK.zip w).foldl shaRound h
  (h.zip st).map fun p => add32 p.1 p.2

/-- Big-endian bytes of `n`, `k` bytes wide. -/
def beBytes (k n : Nat) : List Nat :=
  (List.range k).map fun i => n >>> (8 * (k - 1 - i)) % 256

/-- SHA-256 padding: `0x80`, zeros up to 56 mod 64, then the 64-bit
big-endian bit length. -/
def shaPad (msg : List Nat) : List Nat :=
  let L := msg.length
  msg ++ [128] ++ List.replicate ((119 - L % 64) % 64) 0 ++ beBytes 8 (8 * L)

/-- Group bytes into big-endian 32-bit words (length must be a multiple
of 4, which padding guarantees). -/
def wordsOfBytes : List Nat → List Nat
  | b0 :: b1 :: b2 :: b3 :: rest =>
      (b0 * 2 ^ 24 + b1 * 2 ^ 16 + b2 * 2 ^ 8 + b3) :: wordsOfBytes rest
  | _ => []

/-- Split a word list into 16-word blocks (`fuel ≥` number of blocks). -/
def blocks16 (fuel : Nat) (ws : List Nat) : List (List Nat) :=
  match fuel, ws with
  | 0, _ => []
  | _, [] => []
  | k + 1, ws => ws.take 16 :: blocks16 k (ws.drop 16)

/-- SHA-256 digest of a byte list, as its 32 digest bytes. -/
def sha256 (msg : List Nat) : List Nat :=
  let ws := wordsOfBytes (shaPad msg)
  let hF := (blocks16 ws.length ws).foldl shaCompress shaH0
  hF.foldr (fun w acc => beBytes 4 w ++ acc) []

/-- Lowercase hex digit for `n < 16`. -/
def hexChar (n : Nat) : Char :=
  if n < 10 then Char.ofNat (48 + n) else Char.ofNat (87 + n)

/-- Lowercase hex encoding of a byte list (`hexdigest`). -/
def bytesToHex (bs : List Nat) : String :=
  String.mk (bs.foldr (fun b acc => hexChar (b / 16) :: hexChar (b % 16) :: acc) [])

/-- HMAC-SHA256 (block size 64): keys longer than a block are hashed first,
the key is zero-padded, and the digest is `H((K ⊕ opad) ‖ H((K ⊕ ipad) ‖ m))`. -/
def hmacSha256 (key msg : List Nat) : List Nat :=
  let k0 := if 64 < key.length then sha256 key else key
  let kp := k0 ++ List.replicate (64 - k0.length) 0
  sha256 ((kp.map fun b => b ^^^ 0x5c) ++
          sha256 ((kp.map fun b => b ^^^ 0x36) ++ msg))

/-! ## UTF-8 codec

`payload.decode('utf-8')` in Python is the strict decoder: it rejects
continuation-byte leads, overlong encodings, surrogate code points and
code points above `0x10FFFF`, and truncated sequences. -/

/-- Is `b` a UTF-8 continuation byte (`0x80–0xBF`)? -/
def isCont (b : Nat) : Bool := 0x80 ≤ b && b < 0xC0

/-- Strict UTF-8 decoding of a byte list into code points (as `Char`s);
`fuel` bounds the recursion (one unit per decoded character). -/
def utf8DecodeAux (fuel : Nat) (bs : List Nat) (acc : List Char) :
    Option (List Char) :=
  match fuel with
  | 0 => match bs with | [] => some acc.reverse | _ => none
  | f + 1 =>
    match bs with
    | [] => some acc.reverse
    | b :: rest =>
      if b < 0x80 then utf8DecodeAux f rest (Char.ofNat b :: acc)
      else if b < 0xC2 then none  -- stray continuation byte, or overlong C0/C1
      else if b < 0xE0 then
        match rest with
        | c1 :: rest' =>
          if isCont c1 then
            utf8DecodeAux f rest' (Char.ofNat ((b - 0xC0) * 64 + (c1 - 0x80)) :: acc)
          else none
        | [] => none
      else if b < 0xF0 then
        match rest with
        | c1 :: c2 :: rest' =>
          if isCont c1 && isCont c2 then
            let cp := (b - 0xE0) * 4096 + (c1 - 0x80) * 64 + (c2 - 0x80)
            if cp < 0x800 then none             -- overlong
            else if 0xD800 ≤ cp && cp < 0xE000 then none  -- surrogate
            else utf8DecodeAux f rest' (Char.ofNat cp :: acc)
          else none
        | _ => none
      else if b < 0xF5 then
        match rest with
        | c1 :: c2 :: c3 :: rest' =>
          if isCont c1 && isCont c2 && isCont c3 then
            let cp := (b - 0xF0) * 262144 + (c1 - 0x80) * 4096 +
                      (c2 - 0x80) * 64 + (c3 - 0x80)
            if cp < 0x10000 then none           -- overlong
            else if 0x10FFFF < cp then none
            else utf8DecodeAux f rest' (Char.ofNat cp :: acc)
          else none
        | _ => none
      else none                                  -- F5–FF never appear in UTF-8

/-- `bytes.decode('utf-8')`: `some` of the decoded string, `none` when Python
raises `UnicodeDecodeError`. -/
def utf8Decode (bs : List Nat) : Option String :=
  (utf8DecodeAux bs.length bs []).map String.mk

/-- UTF-8 encoding of one scalar value. -/
def utf8EncodeChar (c : Char) : List Nat :=
  let n := c.toNat
  if n < 0x80 then [n]
  else if n < 0x800 then [0xC0 + n / 64, 0x80 + n % 64]
  else if n < 0x10000 then
    [0xE0 + n / 4096, 0x80 + n / 64 % 64, 0x80 + n % 64]
  else
    [0xF0 + n / 262144, 0x80 + n / 4096 % 64, 0x80 + n / 64 % 64, 0x80 + n % 64]

/-- `str.encode('utf-8')`. -/
def utf8Encode (s : String) : List Nat :=
  s.data.foldr (fun c acc => utf8EncodeChar c ++ acc) []

/-! ## Python `int(...)` parsing

`int(timestamp_str)` strips whitespace, allows one optional sign, and then
decimal digits with single embedded underscores.  (Python also accepts
non-ASCII decimal digits and Unicode spaces; the model covers the ASCII
repertoire, and every input a theorem below evaluates stays inside it.) -/

/-- Python `str.strip()` whitespace characters (ASCII repertoire). -/
def isPyWs (c : Char) : Bool :=
  c == ' ' || c == Char.ofNat 9 || c == Char.ofNat 10 || c == Char.ofNat 13 ||
  c == Char.ofNat 11 || c == Char.ofNat 12

/-- Digits with single embedded underscores, continuing `acc`. -/
def pyDigitsAux : List Char → Nat → Option Nat
  | [], acc => some acc
  | '_' :: c :: cs, acc =>
      if c.isDigit then pyDigitsAux cs (acc * 10 + (c.toNat - 48)) else none
  | ['_'], _ => none
  | c :: cs, acc =>
      if c.isDigit then pyDigitsAux cs (acc * 10 + (c.toNat - 48)) else none

/-- A nonempty digit group (`1`, `1_000`, …). -/
def pyDigits : List Char → Option Nat
  | [] => none
  | c :: cs => if c.isDigit then pyDigitsAux cs (c.toNat - 48) else none

/-- Python `int(s)`: `some` of the parsed integer, `none` when Python raises
`ValueError`. -/
def pyParseInt (s : String) : Option Int :=
  let cs := ((s.data.dropWhile isPyWs).reverse.dropWhile isPyWs).reverse
  match cs with
  | '+' :: rest => (pyDigits rest).map Int.ofNat
  | '-' :: rest => (pyDigits rest).map fun n => -(n : Int)
  | rest => (pyDigits rest).map Int.ofNat

/-! ## JSON values and `json.loads`

JSON values as produced by `json.loads`: objects are association lists in
source order (on duplicate keys the later binding wins, as in a Python
`dict`).  Numbers are modelled as integers: the claims under study involve
no float payloads, and the parser below rejects fraction/exponent forms
instead of producing a float. -/

inductive Json where
  | null
  | bool (value : Bool)
  | num (value : Int)
  | str (value : String)
  | obj (fields : List (String × Json))
  | arr (items : List Json)

/-- Python truthiness, negated: `not v` for the values `json.loads` can
produce (`None`, `False`, `0`, `""`, `[]`, `{}` are falsy). -/
def falsy : Json → Bool
  | .null => true
  | .bool b => !b
  | .num n => n == 0
  | .str s => s == ""
  | .arr xs => xs.isEmpty
  | .obj ms => ms.isEmpty

/-- `d.get(k)` on a dict: the last binding of `k` wins, `none` is Python's
`None` for a missing key. -/
def dictGet (ms : List (String × Json)) (k : String) : Option Json :=
  ms.foldl (fun acc kv => if kv.1 == k then some kv.2 else acc) none

/-- JSON whitespace (space, tab, LF, CR). -/
def skipWs (cs : List Char) : List Char :=
  cs.dropWhile fun c =>
    c == ' ' || c == Char.ofNat 9 || c == Char.ofNat 10 || c == Char.ofNat 13

/-- Four hex digits of a `\uXXXX` escape. -/
def hexVal (c : Char) : Option Nat :=
  if c.isDigit then some (c.toNat - 48)
  else if 'a' ≤ c && c ≤ 'f' then some (c.toNat - 87)
  else if 'A' ≤ c && c ≤ 'F' then some (c.toNat - 55)
  else none

/-- Value of `\uXXXX` from its four hex characters. -/
def hex4 (a b c d : Char) : Option Nat :=
  match hexVal a, hexVal b, hexVal c, hexVal d with
  | some x, some y, some z, some w => some (x * 4096 + y * 256 + z * 16 + w)
  | _, _, _, _ => none

/-- JSON string body after the opening quote; escapes `\" \\ \/ \b \f \n \r
\t \uXXXX`, with astral characters as surrogate pairs.  (A lone surrogate
escape is rejected here where Python would build a lone-surrogate `str`; no
claim exercises that corner.) -/
def parseJString (fuel : Nat) (cs : List Char) (acc : List Char) :
    Option (String × List Char) :=
  match fuel with
  | 0 => none
  | f + 1 =>
    match cs with
    | [] => none
    | '"' :: rest => some (String.mk acc.reverse, rest)
    | '\\' :: e :: rest =>
      match e with
      | '"' => parseJString f rest ('"' :: acc)
      | '\\' => parseJString f rest ('\\' :: acc)
      | '/' => parseJString f rest ('/' :: acc)
      | 'b' => parseJString f rest (Char.ofNat 8 :: acc)
      | 'f' => parseJString f rest (Char.ofNat 12 :: acc)
      | 'n' => parseJString f rest (Char.ofNat 10 :: acc)
      | 'r' => parseJString f rest (Char.ofNat 13 :: acc)
      | 't' => parseJString f rest (Char.ofNat 9 :: acc)
      | 'u' =>
        match rest with
        | a :: b :: c :: d :: rest' =>
          match hex4 a b c d with
          | none => none
          | some n =>
            if n < 0xD800 || 0xE000 ≤ n then
              parseJString f rest' (Char.ofNat n :: acc)
            else if n < 0xDC00 then
              -- lead surrogate: require a trail surrogate escape
              match rest' with
              | '\\' :: 'u' :: a2 :: b2 :: c2 :: d2 :: rest'' =>
                match hex4 a2 b2 c2 d2 with
                | some m =>
                  if 0xDC00 ≤ m && m < 0xE000 then
                    parseJString f rest''
                      (Char.ofNat (0x10000 + (n - 0xD800) * 1024 + (m - 0xDC00)) :: acc)
                  else none
                | none => none
              | _ => none
            else none
        | _ => none
      | _ => none
    | c :: rest =>
      if c.toNat < 0x20 then none else parseJString f rest (c :: acc)

/-- A JSON integer literal: `0`, or a nonzero digit followed by digits;
fraction/exponent forms are outside the model. -/
def parseJNat (cs : List Char) : Option (Nat × List Char) :=
  match cs.span (·.isDigit) with
  | ([], _) => none
  | (ds, rest) =>
    match rest with
    | c :: _ => if c == '.' || c == 'e' || c == 'E' then none else goOn ds rest
    | [] => goOn ds rest
where
  goOn (ds : List Char) (rest : List Char) : Option (Nat × List Char) :=
    match ds with
    | '0' :: _ :: _ => none   -- leading zero is invalid JSON
    | _ => some (ds.foldl (fun a c => a * 10 + (c.toNat - 48)) 0, rest)

mutual

/-- One JSON value, returning the unconsumed suffix. -/
def parseJValue (fuel : Nat) (cs : List Char) : Option (Json × List Char) :=
  match fuel with
  | 0 => none
  | f + 1 =>
    match skipWs cs with
    | 'n' :: 'u' :: 'l' :: 'l' :: rest => some (.null, rest)
    | 't' :: 'r' :: 'u' :: 'e' :: rest => some (.bool true, rest)
    | 'f' :: 'a' :: 'l' :: 's' :: 'e' :: rest => some (.bool false, rest)
    | '"' :: rest =>
      match parseJString (rest.length + 1) rest [] with
      | some (s, rest') => some (.str s, rest')
      | none => none
    | '[' :: rest =>
      match skipWs rest with
      | ']' :: rest' => some (.arr [], rest')
      | cs' => match parseJItems f cs' [] with
               | some (vs, rest') => some (.arr vs, rest')
               | none => none
    | '\x7b' :: rest =>
      match skipWs rest with
      | '\x7d' :: rest' => some (.obj [], rest')
      | cs' => match parseJMembers f cs' [] with
               | some (ms, rest') => some (.obj ms, rest')
               | none => none
    | '-' :: rest =>
      match parseJNat rest with
      | some (n, rest') => some (.num (-(n : Int)), rest')
      | none => none
    | cs' =>
      match parseJNat cs' with
      | some (n, rest') => some (.num (n : Int), rest')
      | none => none

/-- Array elements after `[` (at least one), accumulated in reverse. -/
def parseJItems (fuel : Nat) (cs : List Char) (acc : List Json) :
    Option (List Json × List Char) :=
  match fuel with
  | 0 => none
  | f + 1 =>
    match parseJValue f cs with
    | none => none
    | some (v, rest) =>
      match skipWs rest with
      | ',' :: rest' => parseJItems f rest' (v :: acc)
      | ']' :: rest' => some ((v :: acc).reverse, rest')
      | _ => none

/-- Object members after `\x7b` (at least one), accumulated in reverse. -/
def parseJMembers (fuel : Nat) (cs : List Char) (acc : List (String × Json)) :
    Option (List (String × Json) × List Char) :=
  match fuel with
  | 0 => none
  | f + 1 =>
    match skipWs cs with
    | '"' :: rest =>
      match parseJString (rest.length + 1) rest [] with
      | none => none
      | some (k, rest') =>
        match skipWs rest' with
        | ':' :: rest'' =>
          match parseJValue f rest'' with
          | none => none
          | some (v, r3) =>
            match skipWs r3 with
            | ',' :: r4 => parseJMembers f r4 ((k, v) :: acc)
            | '}' :: r4 => some (((k, v) :: acc).reverse, r4)
            | _ => none
        | _ => none
    | _ => none

end

/-- `json.loads(s)`: `some` of the parsed value, `none` when Python raises
(the handler's `except Exception` turns that into the `Invalid JSON`
rejection). -/
def jsonLoads (s : String) : Option Json :=
  match parseJValue (2 * s.data.length + 4) s.data with
  | some (v, rest) => if skipWs rest = [] then some v else none
  | none => none

/-! ## The `POST /webhook` handler

The handler is a straight line of checks (src/main.py, `webhook`).  Each
stage below mirrors one block of the function; `Outcome.crash` marks the
places where Python raises an exception no `except` block catches (the
hosting runtime then answers 500, but the handler itself never produced a
response). -/

/-- The six hard-coded allow-listed egress addresses (`ALLOWED_IPS`). -/
def ALLOWED_IPS : List String :=
  ["34.67.146.145", "34.59.11.47", "35.204.38.71", "34.147.113.54",
   "35.185.187.110", "35.247.157.189"]

/-- Result of one handler invocation. -/
inductive Outcome where
  /-- `return {"status": "received"}` — HTTP 200. -/
  | ok
  /-- `raise HTTPException(status_code=status, detail=detail)`. -/
  | httpError (status : Nat) (detail : String)
  /-- an uncaught Python exception escapes the handler. -/
  | crash (exc : String)
  deriving DecidableEq

/-- `data.get("data", {})`, `if not event_data`, then the field reads of the
`call_initiation_failure` branch.  `agent_id`, `conversation_id`,
`failure_reason`, `metadata` and `event_timestamp` are read and logged only,
and the simulated register-call catches its own exceptions, so with a dict
`event_data` the branch always ends in `return {"status": "received"}`. -/
def dispatchCallInitFailure (data : List (String × Json)) : Outcome :=
  let event_data := (dictGet data "data").getD (.obj [])
  if falsy event_data then .ok
  else
    match event_data with
    | .obj _ => .ok
    | _ => .crash "AttributeError"   -- `event_data.get("agent_id")` on a non-dict

/-- `data.get("data", {})`, `if not event_data`, then the nested reads of the
`post_call_transcription` branch.  `user_id` needs `metadata` (when present)
to be a dict, `transcript_summary`/`call_successful` need `analysis` (when
present) to be a dict, and `transcript_summary.lower()` needs the summary to
be a string; everything else is read and logged only. -/
def dispatchPostCall (data : List (String × Json)) : Outcome :=
  let event_data := (dictGet data "data").getD (.obj [])
  if falsy event_data then .ok
  else
    match event_data with
    | .obj ed =>
      match (dictGet ed "metadata").getD (.obj []) with
      | .obj _ =>
        match (dictGet ed "analysis").getD (.obj []) with
        | .obj akvs =>
          match (dictGet akvs "transcript_summary").getD (.str "") with
          | .str _ => .ok
          | _ => .crash "AttributeError"  -- non-str has no `.lower`
        | _ => .crash "AttributeError"    -- `.get("transcript_summary", "")` on a non-dict
      | _ => .crash "AttributeError"      -- `.get("user_id", "unknown")` on a non-dict
    | _ => .crash "AttributeError"        -- `.get("metadata", {})` on a non-dict

/-- The multi-way branch on `event_type` after validation; an unhandled type
is logged and acknowledged. -/
def dispatchEvent (data : List (String × Json)) (event_type : Json) : Outcome :=
  match event_type with
  | .str s =>
    if s == "call_initiation_failure" then dispatchCallInitFailure data
    else if s == "post_call_transcription" then dispatchPostCall data
    else .ok
  | _ => .ok

/-- `await request.json()` under `try/except` (any exception becomes the
`Invalid JSON` rejection), then `data.get("type")` and the truthiness check
`if not event_type`. -/
def handleBody (bodyStr : String) : Outcome :=
  match jsonLoads bodyStr with
  | none => .httpError 400 "Invalid JSON"
  | some data =>
    match data with
    | .obj ms =>
      match dictGet ms "type" with
      | none => .httpError 400 "Missing event type"
      | some v => if falsy v then .httpError 400 "Missing event type"
                  else dispatchEvent ms v
    | _ => .crash "AttributeError"   -- `data.get("type")` on a non-dict body

/-- `'v0=' + hmac.new(secret.encode(), f"\x7btimestamp\x7d.\x7bbody\x7d".encode(),
sha256).hexdigest()`. -/
def expectedDigest (secret : String) (timestamp : Int) (bodyStr : String) : String :=
  "v0=" ++ bytesToHex (hmacSha256 (utf8Encode secret)
    (utf8Encode (toString timestamp ++ "." ++ bodyStr)))

/-- The signature block: `payload.decode('utf-8')` (an invalid body raises
`UnicodeDecodeError` before the MAC is computed), the digest comparison, and
the JSON stage beyond it. -/
def checkSignature (secret : String) (timestamp : Int) (hmacSignature : String)
    (body : List Nat) : Outcome :=
  match utf8Decode body with
  | none => .crash "UnicodeDecodeError"
  | some bodyStr =>
    if hmacSignature != expectedDigest secret timestamp bodyStr then
      .httpError 400 "Invalid signature"
    else handleBody bodyStr

/-- `os.getenv("ELEVENLABS_WEBHOOK_SECRET")` and `if not secret` — the
secret is rejected when unset or empty, before any signature work. -/
def checkSecret (secret : Option String) (timestamp : Int)
    (hmacSignature : String) (body : List Nat) : Outcome :=
  match secret with
  | none => .httpError 500 "Webhook secret not configured"
  | some s =>
    if s == "" then .httpError 500 "Webhook secret not configured"
    else checkSignature s timestamp hmacSignature body

/-- `int(timestamp_str)` under `try/except ValueError`, then the replay
window `timestamp < int(time.time()) - 30 * 60`. -/
def checkTimestamp (now : Int) (secret : Option String) (tsStr : String)
    (hmacSignature : String) (body : List Nat) : Outcome :=
  let tolerance := now - 30 * 60
  match pyParseInt tsStr with
  | none => .httpError 400 "Invalid timestamp"
  | some timestamp =>
    if timestamp < tolerance then .httpError 400 "Timestamp too old"
    else checkSecret secret timestamp hmacSignature body

/-- `s.split(",")` on the comma character: Python keeps empty fields and maps
the empty string to `[""]`. -/
def splitCommaAux : List Char → List Char → List String
  | [], acc => [String.mk acc.reverse]
  | ',' :: rest, acc => String.mk acc.reverse :: splitCommaAux rest []
  | c :: rest, acc => splitCommaAux rest (c :: acc)

/-- `signature_header.split(",")`. -/
def splitComma (s : String) : List String := splitCommaAux s.data []

/-- `s[n:]` — Python slices strings by code point. -/
def strDrop (n : Nat) (s : String) : String := String.mk (s.data.drop n)

/-- The whole handler: IP allow-list, header presence,
`signature_header.split(",")` with the two-field check, `parts[0][2:]` as the
timestamp text, `parts[1]` as the signature field, then the later stages.
`request.client` may be `None`, hence the optional client IP. -/
def webhook (now : Int) (secret : Option String) (clientIp : Option String)
    (sigHeader : Option String) (body : List Nat) : Outcome :=
  let ipOk := match clientIp with
              | some ip => ALLOWED_IPS.contains ip
              | none => false
  if !ipOk then .httpError 403 "Unauthorized IP"
  else
    match sigHeader with
    | none => .httpError 400 "Missing ElevenLabs-Signature header"
    | some sh =>
      match splitComma sh with
      | [p0, p1] => checkTimestamp now secret (strDrop 2 p0) p1 body
      | _ => .httpError 400 "Invalid signature format"

/-- Outcomes the event dispatch can produce. -/
def dispatchOutcomes : List Outcome := [.ok, .crash "AttributeError"]

/-- Outcomes of the JSON stage. -/
def handleBodyOutcomes : List Outcome :=
  dispatchOutcomes ++ [.httpError 400 "Invalid JSON",
    .httpError 400 "Missing event type"]

/-- Outcomes of the signature stage. -/
def checkSignatureOutcomes : List Outcome :=
  handleBodyOutcomes ++ [.crash "UnicodeDecodeError",
    .httpError 400 "Invalid signature"]

/-- Outcomes of the secret stage. -/
def checkSecretOutcomes : List Outcome :=
  checkSignatureOutcomes ++ [.httpError 500 "Webhook secret not configured"]

/-- Outcomes of the timestamp stage. -/
def checkTimestampOutcomes : List Outcome :=
  checkSecretOutcomes ++ [.httpError 400 "Invalid timestamp",
    .httpError 400 "Timestamp too old"]

/-- Outcomes of the whole handler. -/
def webhookOutcomes : List Outcome :=
  checkTimestampOutcomes ++ [.httpError 403 "Unauthorized IP",
    .httpError 400 "Missing ElevenLabs-Signature header",
    .httpError 400 "Invalid signature format"]

/-- The shape condition under which the `call_initiation_failure` branch runs
to completion: `data` absent/falsy, or a dict. -/
def dataShapeCIF (ms : List (String × Json)) : Bool :=
  let d := (dictGet ms "data").getD (.obj [])
  falsy d || (match d with | .obj _ => true | _ => false)

/-- The shape condition under which the `post_call_transcription` branch runs
to completion: `data` absent/falsy, or a dict whose `metadata` (when present)
is a dict and whose `analysis` (when present) is a dict with a string (or
absent) `transcript_summary`. -/
def dataShapePC (ms : List (String × Json)) : Bool :=
  let d := (dictGet ms "data").getD (.obj [])
  falsy d ||
    (match d with
     | .obj ed =>
       (match (dictGet ed "metadata").getD (.obj []) with
        | .obj _ => true | _ => false) &&
       (match (dictGet ed "analysis").getD (.obj []) with
        | .obj akvs =>
          (match (dictGet akvs "transcript_summary").getD (.str "") with
           | .str _ => true | _ => false)
        | _ => false)
     | _ => false)

/-- The event dispatch on `v` (the `type` value of the object `ms`) finishes
without an uncaught exception. -/
def dispatchSafe (ms : List (String × Json)) (v : Json) : Bool :=
  match v with
  | .str s =>
    if s == "call_initiation_failure" then dataShapeCIF ms
    else if s == "post_call_transcription" then dataShapePC ms
    else true
  | _ => true

/-! ## Stage lemmas

Reduction lemmas walking the handler through its checks, and
characterizations of the outcomes each stage can produce. -/

lemma webhook_to_checkTimestamp {ip sh p0 p1 : String} {now : Int}
    {secret : Option String} {body : List Nat}
    (hip : ALLOWED_IPS.contains ip = true)
    (hsplit : splitComma sh = [p0, p1]) :
    webhook now secret (some ip) (some sh) body =
      checkTimestamp now secret (strDrop 2 p0) p1 body := by
  have hip' : ip ∈ ALLOWED_IPS := by simpa using hip
  simp only [webhook]
  rw [hsplit]
  simp [hip']

lemma checkTimestamp_to_checkSecret {now t : Int} {secret : Option String}
    {tsStr p1 : String} {body : List Nat}
    (hts : pyParseInt tsStr = some t) (hfresh : ¬ t < now - 1800) :
    checkTimestamp now secret tsStr p1 body = checkSecret secret t p1 body := by
  simp only [checkTimestamp]
  rw [hts]
  simp only []
  rw [if_neg (by omega)]

lemma checkSecret_to_checkSignature {s : String} {t : Int} {p1 : String}
    {body : List Nat} (hs : s ≠ "") :
    checkSecret (some s) t p1 body = checkSignature s t p1 body := by
  simp only [checkSecret]
  simp [hs]

lemma checkSignature_decoded {s : String} {t : Int} {p1 : String}
    {body : List Nat} {bodyStr : String}
    (hutf : utf8Decode body = some bodyStr) :
    checkSignature s t p1 body =
      if p1 ≠ expectedDigest s t bodyStr then .httpError 400 "Invalid signature"
      else handleBody bodyStr := by
  simp only [checkSignature]
  rw [hutf]
  simp [bne_iff_ne]

lemma dispatchCallInitFailure_mem (d : List (String × Json)) :
    dispatchCallInitFailure d ∈ dispatchOutcomes := by
  simp only [dispatchCallInitFailure]
  split
  · decide
  · split <;> decide

lemma dispatchPostCall_mem (d : List (String × Json)) :
    dispatchPostCall d ∈ dispatchOutcomes := by
  simp only [dispatchPostCall]
  split
  · decide
  · split
    · split
      · split
        · split <;> decide
        · decide
      · decide
    · decide

lemma dispatchEvent_mem (ms : List (String × Json)) (v : Json) :
    dispatchEvent ms v ∈ dispatchOutcomes := by
  simp only [dispatchEvent]
  split
  · split
    · exact dispatchCallInitFailure_mem ms
    · split
      · exact dispatchPostCall_mem ms
      · decide
  · decide

lemma handleBody_mem (b : String) : handleBody b ∈ handleBodyOutcomes := by
  simp only [handleBody]
  split
  · decide
  · split
    · split
      · decide
      · split
        · decide
        next hfalsy =>
          rename_i xv ms hms xty v hv
          exact (show dispatchOutcomes ⊆ handleBodyOutcomes by decide)
            (dispatchEvent_mem ms v)
    · decide

lemma checkSignature_mem (s : String) (t : Int) (p1 : String) (body : List Nat) :
    checkSignature s t p1 body ∈ checkSignatureOutcomes := by
  simp only [checkSignature]
  split
  · decide
  next bodyStr _ =>
    split
    · decide
    · exact (show handleBodyOutcomes ⊆ checkSignatureOutcomes by decide)
        (handleBody_mem bodyStr)

lemma checkSecret_mem (secret : Option String) (t : Int) (p1 : String)
    (body : List Nat) :
    checkSecret secret t p1 body ∈ checkSecretOutcomes := by
  simp only [checkSecret]
  split
  · decide
  next s =>
    split
    · decide
    · exact (show checkSignatureOutcomes ⊆ checkSecretOutcomes by decide)
        (checkSignature_mem s t p1 body)

lemma checkTimestamp_mem (now : Int) (secret : Option String) (tsStr p1 : String)
    (body : List Nat) :
    checkTimestamp now secret tsStr p1 body ∈ checkTimestampOutcomes := by
  simp only [checkTimestamp]
  split
  · decide
  next t _ =>
    split
    · decide
    · exact (show checkSecretOutcomes ⊆ checkTimestampOutcomes by decide)
        (checkSecret_mem secret t p1 body)

lemma webhook_mem (now : Int) (secret : Option String) (clientIp : Option String)
    (sigHeader : Option String) (body : List Nat) :
    webhook now secret clientIp sigHeader body ∈ webhookOutcomes := by
  simp only [webhook]
  split
  · decide
  · split
    · decide
    next sh =>
      split
      next p0 p1 hsp =>
        exact (show checkTimestampOutcomes ⊆ webhookOutcomes by decide)
          (checkTimestamp_mem now secret (strDrop 2 p0) p1 body)
      · decide

lemma dispatchCIF_ok (ms : List (String × Json)) (h : dataShapeCIF ms = true) :
    dispatchCallInitFailure ms = .ok := by
  simp only [dispatchCallInitFailure]
  simp only [dataShapeCIF] at h
  cases hd : (dictGet ms "data").getD (Json.obj []) <;>
    simp only [hd] at h ⊢ <;> simp_all [falsy]

lemma dispatchPC_ok (ms : List (String × Json)) (h : dataShapePC ms = true) :
    dispatchPostCall ms = .ok := by
  simp only [dispatchPostCall]
  simp only [dataShapePC] at h
  by_cases hfal : falsy ((dictGet ms "data").getD (Json.obj [])) = true
  · rw [if_pos hfal]
  · rw [if_neg hfal]
    rw [Bool.or_eq_true] at h
    replace h := h.resolve_left hfal
    cases hd : (dictGet ms "data").getD (Json.obj []) <;> rw [hd] at h <;>
      simp only [] at h ⊢ <;> try exact absurd h Bool.false_ne_true
    rename_i ed
    rw [Bool.and_eq_true] at h
    obtain ⟨hm1, ha1⟩ := h
    cases hm : (dictGet ed "metadata").getD (Json.obj []) <;> rw [hm] at hm1 <;>
      simp only [] at hm1 ⊢ <;> try exact absurd hm1 Bool.false_ne_true
    cases ha : (dictGet ed "analysis").getD (Json.obj []) <;> rw [ha] at ha1 <;>
      simp only [] at ha1 ⊢ <;> try exact absurd ha1 Bool.false_ne_true
    rename_i akvs
    cases ht : (dictGet akvs "transcript_summary").getD (Json.str "") <;>
      rw [ht] at ha1 <;> simp only [] at ha1 ⊢ <;>
      first
        | rfl
        | exact absurd ha1 Bool.false_ne_true

lemma dispatchEvent_ok (ms : List (String × Json)) (v : Json)
    (h : dispatchSafe ms v = true) : dispatchEvent ms v = .ok := by
  simp only [dispatchEvent]
  simp only [dispatchSafe] at h
  cases v <;> try rfl
  case str s =>
    simp only [] at h ⊢
    by_cases h1 : (s == "call_initiation_failure") = true
    · rw [if_pos h1] at h ⊢
      exact dispatchCIF_ok ms h
    · rw [if_neg h1] at h ⊢
      by_cases h2 : (s == "post_call_transcription") = true
      · rw [if_pos h2] at h ⊢
        exact dispatchPC_ok ms h
      · rw [if_neg h2]

lemma handleBody_ok (bodyStr : String) (ms : List (String × Json))
    (hjson : jsonLoads bodyStr = some (.obj ms))
    (hty : falsy ((dictGet ms "type").getD .null) = false)
    (hsafe : ∀ v, dictGet ms "type" = some v → dispatchSafe ms v = true) :
    handleBody bodyStr = .ok := by
  simp only [handleBody]
  rw [hjson]
  simp only []
  cases hv : dictGet ms "type" with
  | none => rw [hv] at hty; exact absurd hty (by simp [falsy])
  | some v =>
    rw [hv] at hty
    simp only [Option.getD] at hty
    simp only []
    rw [if_neg (by simp [hty])]
    exact dispatchEvent_ok ms v (hsafe v hv)

end Webhook

/-- Sanity check against the FIPS 180-4 test vector for `"abc"`. -/
theorem sha256_abc :
    Webhook.bytesToHex (Webhook.sha256 [97, 98, 99]) =
      "ba7816bf8f01cfea414140de5dae2223b00361a396177a9cb410ff61f20015ad" := by
  decide

/-- Sanity check: HMAC-SHA256 of `"msg"` under key `"key"` matches
`hmac.new(b"key", b"msg", sha256).hexdigest()`. -/
theorem hmac_key_msg :
    Webhook.bytesToHex (Webhook.hmacSha256 (Webhook.utf8Encode "key")
        (Webhook.utf8Encode "msg")) =
      "2d93cbc1be167bcb1637a4a23cbff01a7878f0c50ee833954ea5221bb1b8c628" := by
  decide

/-- Sanity check: UTF-8 round trip on a 1/2/3/4-byte sample, and rejection of
a stray continuation byte. -/
theorem utf8_sanity :
    Webhook.utf8Decode [65, 0xC3, 0xA9, 0xE2, 0x82, 0xAC, 0xF0, 0x9F, 0x98,
        0x80] = some "Aé€😀" ∧
    Webhook.utf8Encode "Aé€😀" = [65, 0xC3, 0xA9, 0xE2, 0x82, 0xAC, 0xF0,
        0x9F, 0x98, 0x80] ∧
    Webhook.utf8Decode [0x80] = none ∧
    Webhook.utf8Decode [0xC3] = none := by
  decide

/-- Sanity check: Python `int` parsing accepts sign, space and underscores and
rejects malformed inputs. -/
theorem pyParseInt_sanity :
    Webhook.pyParseInt "123" = some 123 ∧
    Webhook.pyParseInt " -4_2 " = some (-42) ∧
    Webhook.pyParseInt "+7" = some 7 ∧
    Webhook.pyParseInt "" = none ∧
    Webhook.pyParseInt "1a" = none ∧
    Webhook.pyParseInt "_1" = none ∧
    Webhook.pyParseInt "1_" = none ∧
    Webhook.pyParseInt "1__2" = none ∧
    Webhook.pyParseInt "- 5" = none := by
  decide

/-! ## The claims -/

/-- Claim C5: for every request whose client IP is not one of the six
hard-coded allow-listed addresses (including a request with no client
address), the outcome is the unauthorized_ip rejection — HTTP 403, detail
"Unauthorized IP" — regardless of the headers and body: the IP check
precedes every other check. -/
theorem unauthorized_ip_always (now : Int) (secret : Option String)
    (clientIp : Option String) (sigHeader : Option String) (body : List Nat)
    (h : ∀ ip, clientIp = some ip → ip ∉ Webhook.ALLOWED_IPS) :
    Webhook.webhook now secret clientIp sigHeader body =
      .httpError 403 "Unauthorized IP" := by
  simp only [Webhook.webhook]
  cases clientIp with
  | none => simp
  | some ip =>
    have hm := h ip rfl
    simp [hm]

/-- Witness for C5: a request from 8.8.8.8 with a plausible header is
rejected with 403 "Unauthorized IP". -/
theorem unauthorized_ip_always_witness :
    Webhook.webhook 1700000000 (some "topsecret") (some "8.8.8.8")
      (some "t=1700000000,v0=abc") [123] = .httpError 403 "Unauthorized IP" :=
  unauthorized_ip_always 1700000000 (some "topsecret") (some "8.8.8.8")
    (some "t=1700000000,v0=abc") [123]
    (by intro ip h; cases h; decide)

/-- Claim C2: for every parsed integer timestamp t and current time now, the
freshness check rejects with stale_timestamp (400 "Timestamp too old")
exactly when t < now − 1800; in particular t = now − 1801 is rejected while
t = now − 1800 (the boundary) and t = now − 1799 pass. -/
theorem stale_timestamp_boundary (now t : Int) (secret : Option String)
    (ip sh p0 p1 : String) (body : List Nat)
    (hip : Webhook.ALLOWED_IPS.contains ip = true)
    (hsplit : Webhook.splitComma sh = [p0, p1])
    (hts : Webhook.pyParseInt (Webhook.strDrop 2 p0) = some t) :
    (Webhook.webhook now secret (some ip) (some sh) body =
        .httpError 400 "Timestamp too old" ↔ t < now - 1800) ∧
    (t = now - 1801 → Webhook.webhook now secret (some ip) (some sh) body =
        .httpError 400 "Timestamp too old") ∧
    (t = now - 1800 → Webhook.webhook now secret (some ip) (some sh) body ≠
        .httpError 400 "Timestamp too old") ∧
    (t = now - 1799 → Webhook.webhook now secret (some ip) (some sh) body ≠
        .httpError 400 "Timestamp too old") := by
  rw [Webhook.webhook_to_checkTimestamp hip hsplit]
  have main : Webhook.checkTimestamp now secret (Webhook.strDrop 2 p0) p1 body =
      .httpError 400 "Timestamp too old" ↔ t < now - 1800 := by
    constructor
    · intro h
      by_contra hnot
      rw [Webhook.checkTimestamp_to_checkSecret hts hnot] at h
      have hm := Webhook.checkSecret_mem secret t p1 body
      rw [h] at hm
      exact absurd hm (by decide)
    · intro h
      simp only [Webhook.checkTimestamp]
      rw [hts]
      simp only []
      rw [if_pos (by omega)]
  refine ⟨main, fun h => main.mpr (by omega), fun h hcon => ?_, fun h hcon => ?_⟩
  · have := main.mp hcon; omega
  · have := main.mp hcon; omega

/-- Witness for C2: at now = 2000 a request stamped t = 100 (i.e. 1900
seconds old) is at play; the four conjuncts are instantiated concretely. -/
theorem stale_timestamp_boundary_witness :
    (Webhook.webhook 2000 (some "k") (some "34.59.11.47") (some "t=100,v0=x") [] =
        .httpError 400 "Timestamp too old" ↔ (100 : Int) < 2000 - 1800) ∧
    ((100 : Int) = 2000 - 1801 →
      Webhook.webhook 2000 (some "k") (some "34.59.11.47") (some "t=100,v0=x") [] =
        .httpError 400 "Timestamp too old") ∧
    ((100 : Int) = 2000 - 1800 →
      Webhook.webhook 2000 (some "k") (some "34.59.11.47") (some "t=100,v0=x") [] ≠
        .httpError 400 "Timestamp too old") ∧
    ((100 : Int) = 2000 - 1799 →
      Webhook.webhook 2000 (some "k") (some "34.59.11.47") (some "t=100,v0=x") [] ≠
        .httpError 400 "Timestamp too old") :=
  stale_timestamp_boundary 2000 100 (some "k") "34.59.11.47" "t=100,v0=x"
    "t=100" "v0=x" [] (by rfl) (by rfl) (by decide)

/-- Claim C9: the freshness check enforces only a lower bound — every parsed
timestamp t with now − 1800 ≤ t, however far in the future, passes it, and
validation proceeds to the secret and signature stages. -/
theorem freshness_lower_bound_only (now t : Int) (secret : Option String)
    (ip sh p0 p1 : String) (body : List Nat)
    (hip : Webhook.ALLOWED_IPS.contains ip = true)
    (hsplit : Webhook.splitComma sh = [p0, p1])
    (hts : Webhook.pyParseInt (Webhook.strDrop 2 p0) = some t)
    (hfresh : now - 1800 ≤ t) :
    Webhook.webhook now secret (some ip) (some sh) body =
      Webhook.checkSecret secret t p1 body := by
  rw [Webhook.webhook_to_checkTimestamp hip hsplit,
    Webhook.checkTimestamp_to_checkSecret hts (by omega)]

/-- Witness for C9: a timestamp of 10^50 seconds — absurdly far in the
future — passes the freshness check at now = 0 and reaches the secret
stage. -/
theorem freshness_lower_bound_only_witness :
    Webhook.webhook 0 (some "sec") (some "35.204.38.71")
      (some "t=100000000000000000000000000000000000000000000000000,sig") [7] =
      Webhook.checkSecret (some "sec")
        100000000000000000000000000000000000000000000000000 "sig" [7] :=
  freshness_lower_bound_only 0 100000000000000000000000000000000000000000000000000
    (some "sec") "35.204.38.71"
    "t=100000000000000000000000000000000000000000000000000,sig"
    "t=100000000000000000000000000000000000000000000000000" "sig" [7]
    (by rfl) (by rfl) (by rfl) (by omega)

/-- Claim C1: for every request that passes the IP, header-presence,
header-format, timestamp-parse, freshness and secret checks (and whose body
decodes as UTF-8, which the digest formula presupposes), the expected digest
is "v0=" followed by the lowercase hex HMAC-SHA256, keyed by the UTF-8
secret, of the UTF-8 bytes of "\x7btimestamp\x7d.\x7bbody\x7d"; the handler returns the
signature_mismatch rejection (400 "Invalid signature") iff the second
comma-separated header field differs from that digest. -/
theorem hmac_digest_and_mismatch_iff (now t : Int) (s ip sh p0 p1 : String)
    (body : List Nat) (bodyStr : String)
    (hip : Webhook.ALLOWED_IPS.contains ip = true)
    (hsplit : Webhook.splitComma sh = [p0, p1])
    (hts : Webhook.pyParseInt (Webhook.strDrop 2 p0) = some t)
    (hfresh : ¬ t < now - 1800)
    (hs : s ≠ "")
    (hutf : Webhook.utf8Decode body = some bodyStr) :
    Webhook.expectedDigest s t bodyStr =
      "v0=" ++ Webhook.bytesToHex (Webhook.hmacSha256 (Webhook.utf8Encode s)
        (Webhook.utf8Encode (toString t ++ "." ++ bodyStr))) ∧
    (Webhook.webhook now (some s) (some ip) (some sh) body =
        .httpError 400 "Invalid signature" ↔
      p1 ≠ Webhook.expectedDigest s t bodyStr) := by
  refine ⟨rfl, ?_⟩
  rw [Webhook.webhook_to_checkTimestamp hip hsplit,
    Webhook.checkTimestamp_to_checkSecret hts hfresh,
    Webhook.checkSecret_to_checkSignature hs,
    Webhook.checkSignature_decoded hutf]
  constructor
  · intro h
    by_cases hd : p1 = Webhook.expectedDigest s t bodyStr
    · rw [if_neg (by simp [hd])] at h
      have hm := Webhook.handleBody_mem bodyStr
      rw [h] at hm
      exact absurd hm (by decide)
    · exact hd
  · intro h
    rw [if_pos h]

/-- Witness for C1: a fresh, allow-listed request with second field "zzz"
and empty body; the iff and the digest formula are instantiated. -/
theorem hmac_digest_and_mismatch_iff_witness :
    Webhook.expectedDigest "s" 100 "" =
      "v0=" ++ Webhook.bytesToHex (Webhook.hmacSha256 (Webhook.utf8Encode "s")
        (Webhook.utf8Encode (toString (100 : Int) ++ "." ++ ""))) ∧
    (Webhook.webhook 100 (some "s") (some "35.185.187.110") (some "t=100,zzz") [] =
        .httpError 400 "Invalid signature" ↔
      "zzz" ≠ Webhook.expectedDigest "s" 100 "") :=
  hmac_digest_and_mismatch_iff 100 100 "s" "35.185.187.110" "t=100,zzz"
    "t=100" "zzz" [] "" (by rfl) (by rfl) (by rfl) (by omega) (by decide)
    (by rfl)

/-- Claim C6: for every request that passes the IP, header and timestamp
checks, an absent or empty shared secret yields the missing_secret rejection
with HTTP 500 (before any signature work — the conclusion holds for every
body and signature field, decodable or not); and 500 is the status of no
other rejection: any handler rejection has status 500 iff its detail is the
missing-secret message. -/
theorem missing_secret_is_500 :
    (∀ (now t : Int) (ip sh p0 p1 : String) (body : List Nat)
        (secret : Option String),
      Webhook.ALLOWED_IPS.contains ip = true →
      Webhook.splitComma sh = [p0, p1] →
      Webhook.pyParseInt (Webhook.strDrop 2 p0) = some t →
      ¬ t < now - 1800 →
      (secret = none ∨ secret = some "") →
      Webhook.webhook now secret (some ip) (some sh) body =
        .httpError 500 "Webhook secret not configured") ∧
    (∀ (now : Int) (secret clientIp sigHeader : Option String)
        (body : List Nat) (st : Nat) (dt : String),
      Webhook.webhook now secret clientIp sigHeader body = .httpError st dt →
      (st = 500 ↔ dt = "Webhook secret not configured")) := by
  constructor
  · intro now t ip sh p0 p1 body secret hip hsplit hts hfresh hsec
    rw [Webhook.webhook_to_checkTimestamp hip hsplit,
      Webhook.checkTimestamp_to_checkSecret hts hfresh]
    rcases hsec with rfl | rfl
    · rfl
    · simp [Webhook.checkSecret]
  · intro now secret clientIp sigHeader body st dt h
    have hm := Webhook.webhook_mem now secret clientIp sigHeader body
    rw [h] at hm
    simp [Webhook.webhookOutcomes, Webhook.checkTimestampOutcomes,
      Webhook.checkSecretOutcomes, Webhook.checkSignatureOutcomes,
      Webhook.handleBodyOutcomes, Webhook.dispatchOutcomes] at hm
    rcases hm with h1 | h2 | h3 | h4 | h5 | h6 | h7 | h8 | h9 <;>
      obtain ⟨rfl, rfl⟩ := ‹_ ∧ _› <;> decide

/-- Witness for C6: an allow-listed, fresh request with no secret configured
is answered 500 "Webhook secret not configured" even though its body is not
valid UTF-8. -/
theorem missing_secret_is_500_witness :
    Webhook.webhook 50 none (some "34.147.113.54") (some "t=50,v0=feedbeef")
      [255, 255] = .httpError 500 "Webhook secret not configured" :=
  missing_secret_is_500.1 50 50 "34.147.113.54" "t=50,v0=feedbeef" "t=50"
    "v0=feedbeef" [255, 255] none (by rfl) (by rfl) (by rfl)
    (by omega) (Or.inl rfl)

/-- Claim C8: for every request that passes the IP, header, timestamp and
secret checks but whose raw body is not valid UTF-8, the signature step's
decode raises an uncaught UnicodeDecodeError before the comparison and
before JSON parsing, so no HTTP rejection (no signature_mismatch, no
invalid_json) is ever produced. -/
theorem invalid_utf8_uncaught (now t : Int) (s ip sh p0 p1 : String)
    (body : List Nat)
    (hip : Webhook.ALLOWED_IPS.contains ip = true)
    (hsplit : Webhook.splitComma sh = [p0, p1])
    (hts : Webhook.pyParseInt (Webhook.strDrop 2 p0) = some t)
    (hfresh : ¬ t < now - 1800)
    (hs : s ≠ "")
    (hutf : Webhook.utf8Decode body = none) :
    Webhook.webhook now (some s) (some ip) (some sh) body =
      .crash "UnicodeDecodeError" ∧
    ∀ (st : Nat) (dt : String),
      Webhook.webhook now (some s) (some ip) (some sh) body ≠
        .httpError st dt := by
  have h1 : Webhook.webhook now (some s) (some ip) (some sh) body =
      .crash "UnicodeDecodeError" := by
    rw [Webhook.webhook_to_checkTimestamp hip hsplit,
      Webhook.checkTimestamp_to_checkSecret hts hfresh,
      Webhook.checkSecret_to_checkSignature hs]
    simp only [Webhook.checkSignature]
    rw [hutf]
  refine ⟨h1, fun st dt hcon => ?_⟩
  rw [h1] at hcon
  exact Webhook.Outcome.noConfusion hcon

/-- Witness for C8: a single 0xFF byte is not UTF-8; the otherwise valid
request crashes with UnicodeDecodeError and yields no HTTP rejection. -/
theorem invalid_utf8_uncaught_witness :
    Webhook.webhook 7 (some "k3y") (some "35.247.157.189") (some "t=7,v0=00")
      [255] = .crash "UnicodeDecodeError" ∧
    ∀ (st : Nat) (dt : String),
      Webhook.webhook 7 (some "k3y") (some "35.247.157.189") (some "t=7,v0=00")
        [255] ≠ .httpError st dt :=
  invalid_utf8_uncaught 7 7 "k3y" "35.247.157.189" "t=7,v0=00" "t=7" "v0=00"
    [255] (by rfl) (by rfl) (by rfl) (by omega) (by decide)
    (by rfl)

/-- Claim C4 is false as stated: the handler never verifies that the first
header field begins with "t=" — it blindly strips the first two characters.
Here the first field is "x=100": the claim says this is rejected with
invalid_timestamp, but the timestamp check passes (int("100") parses) and
the handler proceeds all the way to the signature comparison. -/
theorem prefix_not_checked_counterexample :
    Webhook.webhook 100 (some "s") (some "34.67.146.145")
      (some "x=100,v0=zz") [] = .httpError 400 "Invalid signature" ∧
    Webhook.webhook 100 (some "s") (some "34.67.146.145")
      (some "x=100,v0=zz") [] ≠ .httpError 400 "Invalid timestamp" := by
  constructor
  · decide
  · decide

/-- Claim C4 amended: for every signature header that splits into exactly
two comma-separated fields, the validator rejects with invalid_timestamp
(400 "Invalid timestamp") iff the first field with its first two characters
removed — whatever those characters are; the "t=" prefix itself is never
verified — fails to parse as a Python integer. -/
theorem invalid_timestamp_iff_unparsable (now : Int) (secret : Option String)
    (ip sh p0 p1 : String) (body : List Nat)
    (hip : Webhook.ALLOWED_IPS.contains ip = true)
    (hsplit : Webhook.splitComma sh = [p0, p1]) :
    Webhook.webhook now secret (some ip) (some sh) body =
        .httpError 400 "Invalid timestamp" ↔
      Webhook.pyParseInt (Webhook.strDrop 2 p0) = none := by
  rw [Webhook.webhook_to_checkTimestamp hip hsplit]
  constructor
  · intro h
    cases hp : Webhook.pyParseInt (Webhook.strDrop 2 p0) with
    | none => rfl
    | some t =>
      exfalso
      simp only [Webhook.checkTimestamp] at h
      rw [hp] at h
      simp only [] at h
      by_cases hlt : t < now - 30 * 60
      · rw [if_pos hlt] at h
        exact absurd h (by decide)
      · rw [if_neg hlt] at h
        have hm := Webhook.checkSecret_mem secret t p1 body
        rw [h] at hm
        exact absurd hm (by decide)
  · intro h
    simp only [Webhook.checkTimestamp]
    rw [h]

/-- Witness for C4 amended: the first field "t=abc" strips to "abc", which
does not parse as an integer, so the request is rejected with
invalid_timestamp. -/
theorem invalid_timestamp_iff_unparsable_witness :
    (Webhook.webhook 0 none (some "34.67.146.145") (some "t=abc,v0=x") [] =
        .httpError 400 "Invalid timestamp" ↔
      Webhook.pyParseInt (Webhook.strDrop 2 "t=abc") = none) ∧
    Webhook.pyParseInt (Webhook.strDrop 2 "t=abc") = none :=
  ⟨invalid_timestamp_iff_unparsable 0 none "34.67.146.145" "t=abc,v0=x"
      "t=abc" "v0=x" [] (by rfl) (by rfl),
    by decide⟩

/-- Claim C3 is false as stated: this fresh, allow-listed request carries
exactly the expected digest for its unmodified body "notjson" (first
conjunct), yet the outcome is the invalid_json rejection, not Accepted —
the body's content does matter after signature acceptance. -/
theorem accepted_needs_json_counterexample :
    Webhook.expectedDigest "s3cr3t" 1700000000 "notjson" =
      "v0=cd0bdec54d486952006fc990d6d34dda7f07dc0c511c2c550ce03c658e82c777" ∧
    Webhook.utf8Decode (Webhook.utf8Encode "notjson") = some "notjson" ∧
    Webhook.webhook 1700000000 (some "s3cr3t") (some "34.67.146.145")
      (some "t=1700000000,v0=cd0bdec54d486952006fc990d6d34dda7f07dc0c511c2c550ce03c658e82c777")
      (Webhook.utf8Encode "notjson") = .httpError 400 "Invalid JSON" := by
  refine ⟨by decide, by decide, by decide⟩

/-- Claim C3 amended: a request whose client IP is allow-listed, whose
header carries a fresh timestamp and the digest computed with the configured
secret over the unmodified body, is Accepted (HTTP 200) provided the body
additionally parses as a JSON object whose "type" value is non-falsy and
whose recognized-type payload has the shapes the dispatch reads (per
`dispatchSafe`: "data" absent/falsy or a dict, with dict "metadata" and
"analysis" and a string transcript summary where applicable). -/
theorem accepted_with_wellformed_payload (now t : Int) (s ip sh p0 p1 : String)
    (body : List Nat) (bodyStr : String) (ms : List (String × Webhook.Json))
    (hip : Webhook.ALLOWED_IPS.contains ip = true)
    (hsplit : Webhook.splitComma sh = [p0, p1])
    (hts : Webhook.pyParseInt (Webhook.strDrop 2 p0) = some t)
    (hfresh : ¬ t < now - 1800)
    (hs : s ≠ "")
    (hutf : Webhook.utf8Decode body = some bodyStr)
    (hsig : p1 = Webhook.expectedDigest s t bodyStr)
    (hjson : Webhook.jsonLoads bodyStr = some (Webhook.Json.obj ms))
    (hty : Webhook.falsy ((Webhook.dictGet ms "type").getD Webhook.Json.null) =
      false)
    (hsafe : ∀ v, Webhook.dictGet ms "type" = some v →
      Webhook.dispatchSafe ms v = true) :
    Webhook.webhook now (some s) (some ip) (some sh) body = .ok := by
  rw [Webhook.webhook_to_checkTimestamp hip hsplit,
    Webhook.checkTimestamp_to_checkSecret hts hfresh,
    Webhook.checkSecret_to_checkSignature hs,
    Webhook.checkSignature_decoded hutf,
    if_neg (by simp [hsig])]
  exact Webhook.handleBody_ok bodyStr ms hjson hty hsafe

/-- Witness for C3 amended: the spec's own end-to-end example — IP
34.67.146.145, a correctly signed header, and the call_initiation_failure
body with an agent id — is Accepted. -/
theorem accepted_with_wellformed_payload_witness :
    Webhook.webhook 1700000000 (some "s3cr3t") (some "34.67.146.145")
      (some "t=1700000000,v0=088c7ac3f4d11034ce196b1c65c11735990c2b09c68e81866ceaf0dc395f4d18")
      (Webhook.utf8Encode
        "\x7b\"type\":\"call_initiation_failure\",\"data\":\x7b\"agent_id\":\"a1\"\x7d\x7d") =
      .ok :=
  accepted_with_wellformed_payload 1700000000 1700000000 "s3cr3t"
    "34.67.146.145"
    "t=1700000000,v0=088c7ac3f4d11034ce196b1c65c11735990c2b09c68e81866ceaf0dc395f4d18"
    "t=1700000000"
    "v0=088c7ac3f4d11034ce196b1c65c11735990c2b09c68e81866ceaf0dc395f4d18"
    (Webhook.utf8Encode
      "\x7b\"type\":\"call_initiation_failure\",\"data\":\x7b\"agent_id\":\"a1\"\x7d\x7d")
    "\x7b\"type\":\"call_initiation_failure\",\"data\":\x7b\"agent_id\":\"a1\"\x7d\x7d"
    [("type", Webhook.Json.str "call_initiation_failure"),
     ("data", Webhook.Json.obj [("agent_id", Webhook.Json.str "a1")])]
    (by rfl) (by rfl) (by rfl) (by omega) (by decide) (by rfl)
    (by decide) (by rfl) (by decide)
    (fun v hv => by
      have h2 : some (Webhook.Json.str "call_initiation_failure") = some v := hv
      cases h2
      decide)

/-- Claim C7: an accepted request whose event type is one of the recognized
strings ("call_initiation_failure" or "post_call_transcription") but whose
"data" member is missing or falsy is still answered HTTP 200 with
{"status": "received"} — the same response as a fully processed event. -/
theorem recognized_type_empty_data_received (now t : Int)
    (s ip sh p0 p1 : String) (body : List Nat) (bodyStr : String)
    (ms : List (String × Webhook.Json)) (ty : String)
    (hip : Webhook.ALLOWED_IPS.contains ip = true)
    (hsplit : Webhook.splitComma sh = [p0, p1])
    (hts : Webhook.pyParseInt (Webhook.strDrop 2 p0) = some t)
    (hfresh : ¬ t < now - 1800)
    (hs : s ≠ "")
    (hutf : Webhook.utf8Decode body = some bodyStr)
    (hsig : p1 = Webhook.expectedDigest s t bodyStr)
    (hjson : Webhook.jsonLoads bodyStr = some (Webhook.Json.obj ms))
    (hty : Webhook.dictGet ms "type" = some (Webhook.Json.str ty))
    (hrec : ty = "call_initiation_failure" ∨ ty = "post_call_transcription")
    (hdata : Webhook.falsy ((Webhook.dictGet ms "data").getD
      (Webhook.Json.obj [])) = true) :
    Webhook.webhook now (some s) (some ip) (some sh) body = .ok := by
  rw [Webhook.webhook_to_checkTimestamp hip hsplit,
    Webhook.checkTimestamp_to_checkSecret hts hfresh,
    Webhook.checkSecret_to_checkSignature hs,
    Webhook.checkSignature_decoded hutf,
    if_neg (by simp [hsig])]
  apply Webhook.handleBody_ok bodyStr ms hjson
  · rw [hty]
    rcases hrec with rfl | rfl <;> decide
  · intro v hv
    rw [hty] at hv
    injection hv with hv'
    subst hv'
    rcases hrec with rfl | rfl <;>
      simp [Webhook.dispatchSafe, Webhook.dataShapeCIF, Webhook.dataShapePC,
        hdata]

/-- Witness for C7: a correctly signed post_call_transcription event with no
"data" member at all is answered with the acceptance outcome. -/
theorem recognized_type_empty_data_received_witness :
    Webhook.webhook 1600000000 (some "hunter2") (some "34.59.11.47")
      (some "t=1600000000,v0=0164a8cff3089e96c634814d5fc0e993dcb43d8332f77046888cea5693388b2f")
      (Webhook.utf8Encode "\x7b\"type\":\"post_call_transcription\"\x7d") = .ok :=
  recognized_type_empty_data_received 1600000000 1600000000 "hunter2"
    "34.59.11.47"
    "t=1600000000,v0=0164a8cff3089e96c634814d5fc0e993dcb43d8332f77046888cea5693388b2f"
    "t=1600000000"
    "v0=0164a8cff3089e96c634814d5fc0e993dcb43d8332f77046888cea5693388b2f"
    (Webhook.utf8Encode "\x7b\"type\":\"post_call_transcription\"\x7d")
    "\x7b\"type\":\"post_call_transcription\"\x7d"
    [("type", Webhook.Json.str "post_call_transcription")]
    "post_call_transcription"
    (by rfl) (by rfl) (by rfl) (by omega) (by decide) (by rfl)
    (by decide) (by rfl) (by rfl) (Or.inr rfl) (by decide)

/-- Claim C10: for every body that parses as a JSON object, the
missing_event_type rejection (400 "Missing event type") is produced exactly
when the "type" member is absent or carries any falsy value (null, false, 0,
"", [], {}); every non-falsy value, string or not, is treated as a present
event type and handed to the dispatch branch. -/
theorem falsy_type_missing_event (now t : Int) (s ip sh p0 p1 : String)
    (body : List Nat) (bodyStr : String) (ms : List (String × Webhook.Json))
    (hip : Webhook.ALLOWED_IPS.contains ip = true)
    (hsplit : Webhook.splitComma sh = [p0, p1])
    (hts : Webhook.pyParseInt (Webhook.strDrop 2 p0) = some t)
    (hfresh : ¬ t < now - 1800)
    (hs : s ≠ "")
    (hutf : Webhook.utf8Decode body = some bodyStr)
    (hsig : p1 = Webhook.expectedDigest s t bodyStr)
    (hjson : Webhook.jsonLoads bodyStr = some (Webhook.Json.obj ms)) :
    (Webhook.webhook now (some s) (some ip) (some sh) body =
        .httpError 400 "Missing event type" ↔
      Webhook.falsy ((Webhook.dictGet ms "type").getD Webhook.Json.null) =
        true) ∧
    (∀ v, Webhook.dictGet ms "type" = some v → Webhook.falsy v = false →
      Webhook.webhook now (some s) (some ip) (some sh) body =
        Webhook.dispatchEvent ms v) := by
  rw [Webhook.webhook_to_checkTimestamp hip hsplit,
    Webhook.checkTimestamp_to_checkSecret hts hfresh,
    Webhook.checkSecret_to_checkSignature hs,
    Webhook.checkSignature_decoded hutf,
    if_neg (by simp [hsig])]
  constructor
  · constructor
    · intro h
      simp only [Webhook.handleBody] at h
      rw [hjson] at h
      simp only [] at h
      cases hv : Webhook.dictGet ms "type" with
      | none => simp [hv, Webhook.falsy]
      | some v =>
        rw [hv] at h
        simp only [] at h
        by_cases hf : Webhook.falsy v = true
        · simp [hv, hf]
        · rw [if_neg hf] at h
          have hm := Webhook.dispatchEvent_mem ms v
          rw [h] at hm
          exact absurd hm (by decide)
    · intro h
      simp only [Webhook.handleBody]
      rw [hjson]
      simp only []
      cases hv : Webhook.dictGet ms "type" with
      | none => rfl
      | some v =>
        rw [hv] at h
        simp only [Option.getD] at h
        simp only []
        rw [if_pos h]
  · intro v hv hfv
    simp only [Webhook.handleBody]
    rw [hjson]
    simp only []
    rw [hv]
    simp only []
    rw [if_neg (by simp [hfv])]

/-- Witness for C10: a correctly signed body {"type":0} — the number 0 is
falsy in Python — is rejected with 400 "Missing event type". -/
theorem falsy_type_missing_event_witness :
    (Webhook.webhook 1650000000 (some "k3y") (some "35.204.38.71")
        (some "t=1650000000,v0=6b94a726b9a8e257f53d070a76b9501790d3163e77d769224b6a2447e1c9b6e7")
        (Webhook.utf8Encode "\x7b\"type\":0\x7d") =
        .httpError 400 "Missing event type" ↔
      Webhook.falsy ((Webhook.dictGet [("type", Webhook.Json.num 0)]
        "type").getD Webhook.Json.null) = true) ∧
    (∀ v, Webhook.dictGet [("type", Webhook.Json.num 0)] "type" = some v →
      Webhook.falsy v = false →
      Webhook.webhook 1650000000 (some "k3y") (some "35.204.38.71")
        (some "t=1650000000,v0=6b94a726b9a8e257f53d070a76b9501790d3163e77d769224b6a2447e1c9b6e7")
        (Webhook.utf8Encode "\x7b\"type\":0\x7d") =
        Webhook.dispatchEvent [("type", Webhook.Json.num 0)] v) :=
  falsy_type_missing_event 1650000000 1650000000 "k3y" "35.204.38.71"
    "t=1650000000,v0=6b94a726b9a8e257f53d070a76b9501790d3163e77d769224b6a2447e1c9b6e7"
    "t=1650000000"
    "v0=6b94a726b9a8e257f53d070a76b9501790d3163e77d769224b6a2447e1c9b6e7"
    (Webhook.utf8Encode "\x7b\"type\":0\x7d") "\x7b\"type\":0\x7d"
    [("type", Webhook.Json.num 0)]
    (by rfl) (by rfl) (by rfl) (by omega) (by decide) (by rfl)
    (by decide) (by rfl)
